import Mathlib

/-!
Shallow embedding of `src/app.py` (cloud-computing-CP): a Flask app exposing
`GET /api/stats` (fresh OS sample as JSON, also recorded into three
Prometheus gauges) and `GET /metrics` (gauge exposition).  Python floats are
modelled as `Rat`; OS calls that can raise are modelled with `Option`.
-/

namespace CloudCP

/-- Result of `psutil.disk_usage(path)`; only the `percent` field is used. -/
structure DiskUsage where
  percent : Rat
deriving Repr, DecidableEq

/-- Aggregate counters from `psutil.net_io_counters(pernic=False)`,
passed through as a dict. -/
structure NetCounters where
  bytes_sent : Nat
  bytes_recv : Nat
  packets_sent : Nat
  packets_recv : Nat
  errin : Nat
  errout : Nat
  dropin : Nat
  dropout : Nat
deriving Repr, DecidableEq

/-- Raw per-process data prefetched by `psutil.process_iter` with the four
attrs pid, name, cpu_percent, memory_percent.  The `name` field is `Option`
because psutil may report None; the code then substitutes the empty
string. -/
structure RawProc where
  pid : Int
  name : Option String
  cpu_percent : Rat
  memory_percent : Rat
deriving Repr, DecidableEq

/-- A mocked OS snapshot: everything `api_stats` reads from the host.
`disk_primary` models `psutil.disk_usage` on the Windows drive path and
`disk_root` the same call on the root path; `none` means the call raises.
An entry `none` in `procs` models a process whose detail read raises
mid-enumeration (exited / permission denied), caught by the per-process
`except`. -/
structure OS where
  cpu_percent : Rat
  vm_percent : Rat
  disk_primary : Option DiskUsage
  disk_root : Option DiskUsage
  net : NetCounters
  procs : List (Option RawProc)
  now : Rat

/-- One entry of the `top_processes` array in the JSON response. -/
structure ProcOut where
  pid : Int
  name : String
  cpu : Rat
  mem : Rat
deriving Repr, DecidableEq

/-- The JSON body returned by a successful `GET /api/stats`. -/
structure StatsResponse where
  cpu : Rat
  memory : Rat
  disk : Rat
  net : NetCounters
  top_processes : List ProcOut
  timestamp : Rat
deriving Repr, DecidableEq

/-- The three module-level Prometheus gauges (`g_cpu`, `g_mem`, `g_disk`).
A fresh `Gauge` in a `CollectorRegistry` starts at value 0. -/
structure GaugeState where
  cpu : Rat
  mem : Rat
  disk : Rat
deriving Repr, DecidableEq

/-- Gauge state at process start: prometheus gauges default to 0. -/
def initGauges : GaugeState := ⟨0, 0, 0⟩

/-- Which of the three `Gauge.set` calls inside the `try` block raises.
The Python code sets cpu, then mem, then disk; the first raise aborts the
rest of the block and is swallowed by `except Exception: pass`. -/
structure GaugeFail where
  cpu : Bool
  mem : Bool
  disk : Bool
deriving Repr, DecidableEq

/-- No `Gauge.set` call fails (the normal case). -/
def GaugeFail.ok : GaugeFail := ⟨false, false, false⟩

/-- Python `round(x, 2)` on our rational model: nearest integer multiple
of 1/100, ties to even. -/
def roundHalfEven (q : Rat) : Int :=
  let n := q.floor
  let frac := q - n
  if frac < 1 / 2 then n
  else if 1 / 2 < frac then n + 1
  else if n % 2 = 0 then n else n + 1

/-- Two-decimal rounding: the round(x, 2) calls of the source. -/
def round2 (q : Rat) : Rat := (roundHalfEven (q * 100) : Rat) / 100

/-- The dict built for one successfully read process (lines 200–205): pid,
name with None replaced by the empty string, and the cpu and memory
percentages rounded to two decimals. -/
def procOut (r : RawProc) : ProcOut :=
  { pid := r.pid
    name := r.name.getD ""
    cpu := round2 r.cpu_percent
    mem := round2 r.memory_percent }

/-- The enumeration loop (lines 196–207): failing reads are skipped by the
per-process `except Exception: continue`. -/
def enumProcs (l : List (Option RawProc)) : List ProcOut :=
  l.filterMap (fun o => o.map procOut)

/-- The ordering used by sorted with key cpu and reverse=True:
`a` may come before `b` iff `a.cpu ≥ b.cpu`. -/
def cpuGe (a b : ProcOut) : Bool := b.cpu ≤ a.cpu

/-- Line 208 of the source: a stable sort that puts higher `cpu` first and
keeps the original order on ties, exactly what CPython sorted with
reverse=True produces.  `List.mergeSort` with `cpuGe` is stable with the
same behaviour. -/
def sortByCpuDesc (l : List ProcOut) : List ProcOut := l.mergeSort cpuGe

/-- Disk collection (lines 189–192): try `C:\`, on any exception fall back
to `/`; if that also raises, the exception propagates out of the handler. -/
def collectDisk (os : OS) : Option DiskUsage :=
  match os.disk_primary with
  | some d => some d
  | none => os.disk_root

/-- The gauge-update `try` block (lines 211–216): `g_cpu.set`, `g_mem.set`,
`g_disk.set` in order; the first raise skips the remaining sets and the
exception is discarded by `except Exception: pass`. -/
def recordGauges (gf : GaugeFail) (st : GaugeState) (c m d : Rat) : GaugeState :=
  if gf.cpu then st
  else
    let st1 : GaugeState := { st with cpu := c }
    if gf.mem then st1
    else
      let st2 : GaugeState := { st1 with mem := m }
      if gf.disk then st2
      else { st2 with disk := d }

/-- The `GET /api/stats` handler (lines 181–225).  Returns `none` when the
uncaught disk exception aborts the request (Flask then answers 500 with no
JSON body), else the JSON body and the updated gauge state. -/
def api_stats (os : OS) (gf : GaugeFail) (st : GaugeState) :
    Option (StatsResponse × GaugeState) :=
  let cpu := os.cpu_percent
  let vmPercent := os.vm_percent
  match collectDisk os with
  | none => none
  | some d =>
    let procs := (sortByCpuDesc (enumProcs os.procs)).take 8
    let st2 := recordGauges gf st cpu vmPercent d.percent
    some ({ cpu := cpu
            memory := vmPercent
            disk := d.percent
            net := os.net
            top_processes := procs
            timestamp := os.now }, st2)

/-- One line of the exposition document produced by `generate_latest`. -/
structure MetricLine where
  name : String
  help : String
  value : Rat
deriving Repr, DecidableEq

/-- `generate_latest(registry)`: renders the three registered gauges with
their help text and current values. -/
def generate_latest (st : GaugeState) : List MetricLine :=
  [⟨"container_cpu_percent", "CPU percent", st.cpu⟩,
   ⟨"container_memory_percent", "Memory percent", st.mem⟩,
   ⟨"container_disk_percent", "Disk percent", st.disk⟩]

/-- The `GET /metrics` handler (lines 227–230): serialize the current gauge
state; it takes no OS snapshot and leaves the gauges untouched. -/
def metrics (st : GaugeState) : List MetricLine × GaugeState :=
  (generate_latest st, st)

/-- One incoming HTTP request, with the environment it observes. -/
inductive Request where
  | stats (os : OS) (gf : GaugeFail)
  | scrape

/-- Effect of one request on the process-wide gauge state.  A failed
`/api/stats` (disk exception) leaves the gauges untouched; `/metrics` never
writes. -/
def step (st : GaugeState) : Request → GaugeState
  | .stats os gf =>
    match api_stats os gf st with
    | some (_, st2) => st2
    | none => st
  | .scrape => st

/-- Gauge state after serving a sequence of requests from process start. -/
def runTrace (rs : List Request) : GaugeState := rs.foldl step initGauges

/-- Modelled from the spec invariant (§3): after each request the gauges
should hold exactly the cpu / memory / disk values of the most recent
successful `/api/stats` collection, staying stale otherwise. -/
def specStep (st : GaugeState) : Request → GaugeState
  | .stats os _ =>
    match collectDisk os with
    | some d => ⟨os.cpu_percent, os.vm_percent, d.percent⟩
    | none => st
  | .scrape => st

/-! ### Helper lemmas -/

theorem cpuGe_trans (a b c : ProcOut) (h1 : cpuGe a b = true) (h2 : cpuGe b c = true) :
    cpuGe a c = true := by
  simp only [cpuGe, decide_eq_true_eq] at *
  exact le_trans h2 h1

theorem cpuGe_total (a b : ProcOut) : (cpuGe a b || cpuGe b a) = true := by
  simp only [cpuGe, Bool.or_eq_true, decide_eq_true_eq]
  exact le_total b.cpu a.cpu

theorem sortByCpuDesc_sorted (l : List ProcOut) :
    (sortByCpuDesc l).Pairwise (fun a b => b.cpu ≤ a.cpu) := by
  have h := List.sorted_mergeSort cpuGe_trans cpuGe_total l
  exact h.imp (fun hab => of_decide_eq_true hab)

theorem sortByCpuDesc_perm (l : List ProcOut) : (sortByCpuDesc l).Perm l :=
  List.mergeSort_perm l cpuGe

theorem recordGauges_ok (st : GaugeState) (c m d : Rat) :
    recordGauges GaugeFail.ok st c m d = ⟨c, m, d⟩ := rfl

theorem round2_mul_den (q : Rat) : (round2 q * 100).den = 1 := by
  have h : round2 q * 100 = ((roundHalfEven (q * 100) : Int) : Rat) := by
    rw [round2, div_mul_cancel₀]
    norm_num
  rw [h, Rat.den_intCast]

/-! ### Concrete inputs used by the witnesses -/

/-- A small fixed network-counter snapshot. -/
def netW : NetCounters := ⟨1, 2, 3, 4, 0, 0, 0, 0⟩

/-- A mocked OS snapshot: primary disk path raises, root path succeeds; one
process read fails mid-enumeration; two processes tie on cpu. -/
def osW : OS :=
  { cpu_percent := 12
    vm_percent := 55
    disk_primary := none
    disk_root := some ⟨67/2⟩
    net := netW
    procs := [some ⟨1, some "init", 5/2, 1/10⟩, none,
              some ⟨2, none, 7, 3⟩, some ⟨3, some "py", 5/2, 2⟩]
    now := 1000 }

/-- A mocked OS snapshot on which both disk paths raise. -/
def osBothFail : OS :=
  { osW with disk_primary := none, disk_root := none }

/-- The JSON body `api_stats` produces on `osW`. -/
def respW : StatsResponse :=
  { cpu := 12
    memory := 55
    disk := 67/2
    net := netW
    top_processes := [⟨2, "", 7, 3⟩, ⟨1, "init", 5/2, 1/10⟩, ⟨3, "py", 5/2, 2⟩]
    timestamp := 1000 }

/-! ### Claims -/

/-- C2: if both the primary disk path and the fallback root path fail, the
whole `GET /api/stats` request fails (the exception escapes the handler, so
Flask answers with a server error and no JSON body is built). -/
theorem c2_both_disk_paths_fail (os : OS) (gf : GaugeFail) (st : GaugeState)
    (h1 : os.disk_primary = none) (h2 : os.disk_root = none) :
    api_stats os gf st = none := by
  simp [api_stats, collectDisk, h1, h2]

/-- Witness for C2 on a concrete snapshot where both disk paths raise. -/
theorem c2_witness :
    api_stats osBothFail GaugeFail.ok initGauges = none :=
  c2_both_disk_paths_fail osBothFail GaugeFail.ok initGauges rfl rfl

/-- C3: if the primary disk path fails but the fallback root path succeeds,
the first failure is swallowed, collection succeeds, and the result is
identical to what the handler would produce had the primary path returned
the same usage. -/
theorem c3_fallback_transparent (os : OS) (gf : GaugeFail) (st : GaugeState)
    (d : DiskUsage) (h1 : os.disk_primary = none) (h2 : os.disk_root = some d) :
    (api_stats os gf st).isSome = true ∧
    api_stats os gf st = api_stats { os with disk_primary := some d } gf st := by
  constructor <;> simp [api_stats, collectDisk, h1, h2]

/-- Witness for C3 on `osW`, whose primary path raises and whose root path
reports 33.5 % usage. -/
theorem c3_witness :
    (api_stats osW GaugeFail.ok initGauges).isSome = true ∧
    api_stats osW GaugeFail.ok initGauges
      = api_stats { osW with disk_primary := some ⟨67/2⟩ } GaugeFail.ok initGauges :=
  c3_fallback_transparent osW GaugeFail.ok initGauges ⟨67/2⟩ rfl rfl

/-- C5: a process whose detail read raises mid-enumeration is silently
skipped: the handler neither aborts nor changes anything else, so the
response is exactly the one produced without that process, with all
remaining processes present. -/
theorem c5_process_failure_skipped (os : OS) (gf : GaugeFail) (st : GaugeState)
    (l1 l2 : List (Option RawProc)) :
    api_stats { os with procs := l1 ++ none :: l2 } gf st
      = api_stats { os with procs := l1 ++ l2 } gf st := by
  simp [api_stats, enumProcs, collectDisk, List.filterMap_append]

/-- C6: a failure in any of the three `Gauge.set` calls is swallowed: the
JSON response (the first component) is the same as with no failure, and the
request succeeds or fails identically. -/
theorem c6_gauge_failure_swallowed (os : OS) (gf : GaugeFail) (st : GaugeState) :
    (api_stats os gf st).map Prod.fst = (api_stats os GaugeFail.ok st).map Prod.fst ∧
    (api_stats os gf st).isSome = (api_stats os GaugeFail.ok st).isSome := by
  cases hcd : collectDisk os <;> simp [api_stats, hcd]

/-- C1: on every successful `GET /api/stats`, `top_processes` has length at
most 8, is sorted by `cpu` in non-increasing order, and is the 8-element
truncation of the descending sort of all successfully enumerated processes
(sorting happens before truncation). -/
theorem c1_top_processes_sorted_truncated (os : OS) (gf : GaugeFail) (st : GaugeState)
    (resp : StatsResponse) (st2 : GaugeState)
    (h : api_stats os gf st = some (resp, st2)) :
    resp.top_processes.length ≤ 8 ∧
    resp.top_processes.Pairwise (fun a b => b.cpu ≤ a.cpu) ∧
    resp.top_processes = (sortByCpuDesc (enumProcs os.procs)).take 8 ∧
    (sortByCpuDesc (enumProcs os.procs)).Perm (enumProcs os.procs) := by
  cases hcd : collectDisk os with
  | none => simp [api_stats, hcd] at h
  | some d =>
    simp only [api_stats, hcd, Option.some.injEq, Prod.mk.injEq] at h
    obtain ⟨hresp, -⟩ := h
    subst hresp
    refine ⟨?_, ?_, rfl, sortByCpuDesc_perm _⟩
    · exact List.length_take_le 8 (sortByCpuDesc (enumProcs os.procs))
    · exact (sortByCpuDesc_sorted (enumProcs os.procs)).sublist
        (List.take_sublist 8 _)

unseal Rat.add Rat.mul Rat.inv Rat.sub List.merge List.mergeSort in
/-- Witness for C1 on `osW`: three processes survive enumeration and come
back sorted 7, 5/2, 5/2. -/
theorem c1_witness :
    respW.top_processes.length ≤ 8 ∧
    respW.top_processes.Pairwise (fun a b => b.cpu ≤ a.cpu) ∧
    respW.top_processes = (sortByCpuDesc (enumProcs osW.procs)).take 8 ∧
    (sortByCpuDesc (enumProcs osW.procs)).Perm (enumProcs osW.procs) :=
  c1_top_processes_sorted_truncated osW GaugeFail.ok initGauges respW ⟨12, 55, 67/2⟩
    (by decide)

/-- C7: every successful response carries exactly the collected scalar
fields, the network counters and the timestamp, and every `top_processes`
entry comes from a successfully read process: its `pid` is the pid of that
process, its `name` is the process name with None replaced by the empty
string, and its `cpu` and `mem` are the raw percentages rounded to two
decimal places (so one hundred times each is an integer). -/
theorem c7_response_schema (os : OS) (gf : GaugeFail) (st : GaugeState)
    (resp : StatsResponse) (st2 : GaugeState)
    (h : api_stats os gf st = some (resp, st2)) :
    resp.cpu = os.cpu_percent ∧
    resp.memory = os.vm_percent ∧
    resp.net = os.net ∧
    resp.timestamp = os.now ∧
    (∃ d : DiskUsage, collectDisk os = some d ∧ resp.disk = d.percent) ∧
    ∀ p ∈ resp.top_processes,
      (∃ r : RawProc, some r ∈ os.procs ∧ p.pid = r.pid ∧ p.name = r.name.getD "" ∧
        p.cpu = round2 r.cpu_percent ∧ p.mem = round2 r.memory_percent) ∧
      (p.cpu * 100).den = 1 ∧ (p.mem * 100).den = 1 := by
  cases hcd : collectDisk os with
  | none => simp [api_stats, hcd] at h
  | some d =>
    simp only [api_stats, hcd, Option.some.injEq, Prod.mk.injEq] at h
    obtain ⟨hresp, -⟩ := h
    subst hresp
    refine ⟨rfl, rfl, rfl, rfl, ⟨d, rfl, rfl⟩, ?_⟩
    intro p hp
    have hp2 : p ∈ sortByCpuDesc (enumProcs os.procs) := List.mem_of_mem_take hp
    have hp3 : p ∈ enumProcs os.procs := (sortByCpuDesc_perm _).mem_iff.mp hp2
    obtain ⟨o, ho, hmap⟩ := List.mem_filterMap.mp hp3
    cases o with
    | none => exact Option.noConfusion hmap
    | some r =>
      have hpr : procOut r = p := Option.some.inj hmap
      subst hpr
      exact ⟨⟨r, ho, rfl, rfl, rfl, rfl⟩, round2_mul_den _, round2_mul_den _⟩

unseal Rat.add Rat.mul Rat.inv Rat.sub List.merge List.mergeSort in
/-- Witness for C7 at `osW` and its response `respW`. -/
theorem c7_witness :
    respW.cpu = osW.cpu_percent ∧
    respW.memory = osW.vm_percent ∧
    respW.net = osW.net ∧
    respW.timestamp = osW.now ∧
    (∃ d : DiskUsage, collectDisk osW = some d ∧ respW.disk = d.percent) ∧
    ∀ p ∈ respW.top_processes,
      (∃ r : RawProc, some r ∈ osW.procs ∧ p.pid = r.pid ∧ p.name = r.name.getD "" ∧
        p.cpu = round2 r.cpu_percent ∧ p.mem = round2 r.memory_percent) ∧
      (p.cpu * 100).den = 1 ∧ (p.mem * 100).den = 1 :=
  c7_response_schema osW GaugeFail.ok initGauges respW ⟨12, 55, 67/2⟩ (by decide)

/-- C9: if the mocked OS source reports percentages within `[0, 100]` (cpu,
memory, and whichever disk path answers), then the `cpu`, `memory` and
`disk` values of a successful response are each within `[0, 100]`. -/
theorem c9_values_in_range (os : OS) (gf : GaugeFail) (st : GaugeState)
    (resp : StatsResponse) (st2 : GaugeState)
    (hcpu : 0 ≤ os.cpu_percent ∧ os.cpu_percent ≤ 100)
    (hmem : 0 ≤ os.vm_percent ∧ os.vm_percent ≤ 100)
    (hdp : ∀ d, os.disk_primary = some d → 0 ≤ d.percent ∧ d.percent ≤ 100)
    (hdr : ∀ d, os.disk_root = some d → 0 ≤ d.percent ∧ d.percent ≤ 100)
    (h : api_stats os gf st = some (resp, st2)) :
    (0 ≤ resp.cpu ∧ resp.cpu ≤ 100) ∧
    (0 ≤ resp.memory ∧ resp.memory ≤ 100) ∧
    (0 ≤ resp.disk ∧ resp.disk ≤ 100) := by
  have hd : ∀ d, collectDisk os = some d → 0 ≤ d.percent ∧ d.percent ≤ 100 := by
    intro d hcd
    unfold collectDisk at hcd
    cases hp : os.disk_primary with
    | some d0 =>
      rw [hp] at hcd
      have h0 : d0 = d := Option.some.inj hcd
      subst h0
      exact hdp d0 hp
    | none =>
      rw [hp] at hcd
      exact hdr d hcd
  cases hcd : collectDisk os with
  | none => simp [api_stats, hcd] at h
  | some d =>
    simp only [api_stats, hcd, Option.some.injEq, Prod.mk.injEq] at h
    obtain ⟨hresp, -⟩ := h
    subst hresp
    exact ⟨hcpu, hmem, hd d hcd⟩

unseal Rat.add Rat.mul Rat.inv Rat.sub List.merge List.mergeSort in
/-- Witness for C9 at `osW` (cpu 12 %, memory 55 %, disk 33.5 %). -/
theorem c9_witness :
    (0 ≤ respW.cpu ∧ respW.cpu ≤ 100) ∧
    (0 ≤ respW.memory ∧ respW.memory ≤ 100) ∧
    (0 ≤ respW.disk ∧ respW.disk ≤ 100) :=
  c9_values_in_range osW GaugeFail.ok initGauges respW ⟨12, 55, 67/2⟩
    ⟨by decide, by decide⟩ ⟨by decide, by decide⟩
    (by intro d hd; simp [osW] at hd)
    (by intro d hd; simp [osW] at hd; rw [← hd]; exact ⟨by decide, by decide⟩)
    (by decide)

/-- C10: recording into the gauges is not all-or-nothing.  With a disk
value available, the gauge state after the request is: all three new values
when no set fails; cpu and memory new but disk stale when only the disk set
fails; only cpu new when the memory set fails; fully stale when the cpu set
fails. -/
theorem c10_gauge_record_partial (os : OS) (st : GaugeState) (d : DiskUsage)
    (b b1 b2 : Bool) (h : collectDisk os = some d) :
    (api_stats os ⟨false, false, false⟩ st).map Prod.snd
        = some ⟨os.cpu_percent, os.vm_percent, d.percent⟩ ∧
    (api_stats os ⟨false, false, true⟩ st).map Prod.snd
        = some ⟨os.cpu_percent, os.vm_percent, st.disk⟩ ∧
    (api_stats os ⟨false, true, b⟩ st).map Prod.snd
        = some ⟨os.cpu_percent, st.mem, st.disk⟩ ∧
    (api_stats os ⟨true, b1, b2⟩ st).map Prod.snd = some st := by
  refine ⟨?_, ?_, ?_, ?_⟩ <;> simp [api_stats, h, recordGauges]

unseal Rat.add Rat.mul Rat.inv Rat.sub in
/-- Witness for C10 at `osW` with the stale gauge state (3, 4, 5). -/
theorem c10_witness :
    (api_stats osW ⟨false, false, false⟩ ⟨3, 4, 5⟩).map Prod.snd
        = some ⟨osW.cpu_percent, osW.vm_percent, (67/2 : Rat)⟩ ∧
    (api_stats osW ⟨false, false, true⟩ ⟨3, 4, 5⟩).map Prod.snd
        = some ⟨osW.cpu_percent, osW.vm_percent, (5 : Rat)⟩ ∧
    (api_stats osW ⟨false, true, true⟩ ⟨3, 4, 5⟩).map Prod.snd
        = some ⟨osW.cpu_percent, (4 : Rat), (5 : Rat)⟩ ∧
    (api_stats osW ⟨true, false, true⟩ ⟨3, 4, 5⟩).map Prod.snd
        = some ⟨(3 : Rat), (4 : Rat), (5 : Rat)⟩ :=
  c10_gauge_record_partial osW ⟨3, 4, 5⟩ ⟨67/2⟩ true false true (by decide)

theorem step_eq_specStep (st : GaugeState) (r : Request)
    (h : ∀ os gf, r = .stats os gf → gf = GaugeFail.ok) :
    step st r = specStep st r := by
  cases r with
  | scrape => rfl
  | stats os gf =>
    have hgf : gf = GaugeFail.ok := h os gf rfl
    subst hgf
    cases hcd : collectDisk os with
    | none => simp [step, specStep, api_stats, hcd]
    | some d => simp [step, specStep, api_stats, hcd, recordGauges_ok]

theorem foldl_step_eq_foldl_specStep (rs : List Request) (st : GaugeState)
    (h : ∀ os gf, Request.stats os gf ∈ rs → gf = GaugeFail.ok) :
    rs.foldl step st = rs.foldl specStep st := by
  induction rs generalizing st with
  | nil => rfl
  | cons r rs ih =>
    rw [List.foldl_cons, List.foldl_cons,
      step_eq_specStep st r (fun os gf hr => h os gf (hr ▸ List.mem_cons_self r rs))]
    exact ih _ (fun os gf hmem => h os gf (List.mem_cons_of_mem r hmem))

/-- C4: as long as no `Gauge.set` call fails, after any sequence of
requests the gauges hold exactly the cpu / memory / disk values of the most
recent successful `/api/stats` collection (`specStep` keeps the state stale
on failed collections and on scrapes, and starts from the all-zero state);
`GET /metrics` never changes the gauges and its output is computed from the
gauge state alone, with no sampler involvement. -/
theorem c4_gauge_invariant (rs : List Request)
    (h : ∀ os gf, Request.stats os gf ∈ rs → gf = GaugeFail.ok) :
    runTrace rs = rs.foldl specStep initGauges ∧
    (∀ st : GaugeState, step st Request.scrape = st) ∧
    (∀ st : GaugeState, metrics st = (generate_latest st, st)) :=
  ⟨foldl_step_eq_foldl_specStep rs initGauges h, fun _ => rfl, fun _ => rfl⟩

/-- Witness for C4 on the trace: one successful collection on `osW`, then a
scrape. -/
theorem c4_witness :
    runTrace [Request.stats osW GaugeFail.ok, Request.scrape]
        = [Request.stats osW GaugeFail.ok, Request.scrape].foldl specStep initGauges ∧
    (∀ st : GaugeState, step st Request.scrape = st) ∧
    (∀ st : GaugeState, metrics st = (generate_latest st, st)) :=
  c4_gauge_invariant [Request.stats osW GaugeFail.ok, Request.scrape]
    (by
      intro os gf hmem
      rcases List.mem_cons.mp hmem with heq | hmem2
      · exact (Request.stats.injEq .. ▸ heq).2
      · rcases List.mem_cons.mp hmem2 with heq | hmem3
        · exact Request.noConfusion heq
        · exact absurd hmem3 (List.not_mem_nil _))

/-- C8: scraping `/metrics` before the first `/api/stats` call succeeds and
returns the exposition of the three registered gauges at their default
value 0. -/
theorem c8_metrics_before_first_stats :
    metrics (runTrace []) =
      ([⟨"container_cpu_percent", "CPU percent", 0⟩,
        ⟨"container_memory_percent", "Memory percent", 0⟩,
        ⟨"container_disk_percent", "Disk percent", 0⟩], initGauges) := rfl

end CloudCP
